import Mathlib

/-!
Shallow embedding of the "cyberpunk plaza" web application: the economy
operations (daily check-in, shop purchase, tipping, land purchase), the
discussion-tree queries and the assistant bridge, translated from
src/web/views.py, src/web/models.py and src/web/signals.py.

The relational store is modelled as functions from ids to optional rows;
handlers become pure functions from a store and request data to a message
and an updated store.
-/

abbrev UserId := Nat
abbrev ItemId := Nat
abbrev PlotId := Nat
abbrev NodeId := Nat
abbrev Day := Nat

/-- `UserProfile` (models.py): the mutable per-account game state. The avatar
file reference is omitted (never touched by the handlers modelled here). -/
structure UserProfile where
  coins : Int
  level : Int
  experience : Int
  last_checkin : Option Day
  nickname : String
  bio : String
deriving Repr, DecidableEq

/-- Field defaults of `UserProfile` (models.py lines 13-23):
`coins=100, level=1, experience=0, last_checkin=None`, blank text fields. -/
def defaultProfile : UserProfile :=
  { coins := 100, level := 1, experience := 0, last_checkin := none,
    nickname := "", bio := "" }

/-- `UserProfile.objects.create(user=u)` with no explicit field values, as used
by the `create_user_profile` post-save hook (signals.py) and by every
handler's defensive re-creation path. -/
def create_user_profile (profiles : UserId → Option UserProfile) (u : UserId) :
    UserId → Option UserProfile :=
  fun v => if v = u then some defaultProfile else profiles v

/-- The pervasive `try: get / except DoesNotExist: create` pattern of
views.py: returns the profile in hand and the (possibly extended) store. -/
def getOrCreateProfile (profiles : UserId → Option UserProfile) (u : UserId) :
    UserProfile × (UserId → Option UserProfile) :=
  match profiles u with
  | some p => (p, profiles)
  | none => (defaultProfile, create_user_profile profiles u)

/-- `profile.save()`: write the row for `u`. -/
def saveProfile (profiles : UserId → Option UserProfile) (u : UserId)
    (p : UserProfile) : UserId → Option UserProfile :=
  fun v => if v = u then some p else profiles v

/-! ## Daily check-in (views.py `daily_checkin`, lines 141-168) -/

inductive CheckinMsg
  | alreadyToday
  | rewarded
deriving Repr, DecidableEq

/-- `daily_checkin`: no-op when `last_checkin == today`, otherwise
`coins += 10`, `experience += 5`, `last_checkin = today`. -/
def daily_checkin (profiles : UserId → Option UserProfile) (u : UserId)
    (today : Day) : CheckinMsg × (UserId → Option UserProfile) :=
  let pc := getOrCreateProfile profiles u
  if pc.1.last_checkin = some today then
    (.alreadyToday, pc.2)
  else
    (.rewarded, saveProfile pc.2 u
      { pc.1 with coins := pc.1.coins + 10, experience := pc.1.experience + 5,
                  last_checkin := some today })

/-! ## Shop purchase (views.py `shop_view` POST branch, lines 305-335) -/

/-- `GameItem` (models.py): immutable catalog row; image reference omitted. -/
structure GameItem where
  name : String
  description : String
  price : Int
  effect_value : Int
  category : String
deriving Repr, DecidableEq

/-- The store slice touched by the shop: profiles and the `UserInventory`
table, the latter keyed by the unique (user, item) pair. `none` means no
inventory row exists for the pair. -/
structure ShopState where
  profiles : UserId → Option UserProfile
  inventory : UserId → ItemId → Option Int

inductive ShopMsg
  | itemMissing
  | insufficientBalance
  | purchased (name : String)
deriving Repr, DecidableEq

def ShopMsg.isSuccess : ShopMsg → Bool
  | .purchased _ => true
  | _ => false

/-- The purchase path of `shop_view` for a present `item_id`: look up the
item (error if unknown), get-or-create the profile, reject when
`coins < price`, otherwise debit, then `get_or_create` the inventory row
with `defaults={"quantity": 0}` and add 1. -/
def shop_purchase (items : ItemId → Option GameItem) (s : ShopState)
    (u : UserId) (item_id : ItemId) : ShopMsg × ShopState :=
  match items item_id with
  | none => (.itemMissing, s)
  | some item =>
    let pc := getOrCreateProfile s.profiles u
    if pc.1.coins < item.price then
      (.insufficientBalance, { s with profiles := pc.2 })
    else
      let profiles2 := saveProfile pc.2 u { pc.1 with coins := pc.1.coins - item.price }
      let q := (s.inventory u item_id).getD 0
      let inventory2 := fun v i =>
        if v = u && i = item_id then some (q + 1) else s.inventory v i
      (.purchased item.name, { profiles := profiles2, inventory := inventory2 })

/-! ## Tipping (views.py `transfer_coins`, lines 380-445) -/

inductive TransferMsg
  | amountFormatError
  | amountNotPositive
  | recipientMissing
  | selfTransfer
  | insufficientBalance
  | success
deriving Repr, DecidableEq

/-- `transfer_coins` after the POST/presence guards: `amount` is the result of
Python `int(amount)` on the form field (`none` models `ValueError`), and
`users` tells which account ids exist (`User.objects.get(pk=...)`). Check
order follows the source: parse, `amount <= 0`, recipient lookup,
self-transfer, sender balance; then debit sender and credit recipient. -/
def transfer_coins (users : UserId → Bool)
    (profiles : UserId → Option UserProfile) (sender recipient_id : UserId)
    (amount : Option Int) : TransferMsg × (UserId → Option UserProfile) :=
  match amount with
  | none => (.amountFormatError, profiles)
  | some a =>
    if a ≤ 0 then (.amountNotPositive, profiles)
    else if ¬ users recipient_id then (.recipientMissing, profiles)
    else if recipient_id = sender then (.selfTransfer, profiles)
    else
      let spc := getOrCreateProfile profiles sender
      if spc.1.coins < a then (.insufficientBalance, spc.2)
      else
        let rpc := getOrCreateProfile spc.2 recipient_id
        let profiles3 := saveProfile rpc.2 sender { spc.1 with coins := spc.1.coins - a }
        let profiles4 := saveProfile profiles3 recipient_id { rpc.1 with coins := rpc.1.coins + a }
        (.success, profiles4)

/-! ## Land purchase (views.py `buy_land`, lines 449-511) -/

/-- `LandPlot` (models.py): ownable plot with a fixed system price. -/
structure LandPlot where
  name : String
  x_pos : Int
  y_pos : Int
  owner : Option UserId
  price : Int
  building_type : String
  is_for_sale : Bool
  resale_price : Option Int
deriving Repr, DecidableEq

structure LandState where
  profiles : UserId → Option UserProfile
  plots : PlotId → Option LandPlot

inductive LandMsg
  | plotMissing
  | alreadyOwned
  | insufficientBalance
  | alreadyOwnedRecheck
  | purchased (name : String)
deriving Repr, DecidableEq

/-- `plot.save()`: write the plot row. -/
def savePlot (plots : PlotId → Option LandPlot) (pid : PlotId) (p : LandPlot) :
    PlotId → Option LandPlot :=
  fun q => if q = pid then some p else plots q

/-- `buy_land` after the POST/`plot_id` guards: optimistic owner check,
get-or-create profile, balance check, then inside `transaction.atomic()` a
second read of the plot (`plot.refresh_from_db()`) and a re-check of the
owner before the debit and the owner write. -/
def buy_land (s : LandState) (u : UserId) (pid : PlotId) :
    LandMsg × LandState :=
  match s.plots pid with
  | none => (.plotMissing, s)
  | some plot =>
    match plot.owner with
    | some _ => (.alreadyOwned, s)
    | none =>
      let pc := getOrCreateProfile s.profiles u
      if pc.1.coins < plot.price then
        (.insufficientBalance, { s with profiles := pc.2 })
      else
        match s.plots pid with
        | none => (.plotMissing, { s with profiles := pc.2 })
        | some plot2 =>
          match plot2.owner with
          | some _ => (.alreadyOwnedRecheck, { s with profiles := pc.2 })
          | none =>
            let profiles2 := saveProfile pc.2 u { pc.1 with coins := pc.1.coins - plot2.price }
            let plots2 := savePlot s.plots pid { plot2 with owner := some u }
            (.purchased plot2.name, { profiles := profiles2, plots := plots2 })

/-! ## Discussion tree (views.py `tree_index`, `node_detail`, `create_node`) -/

/-- `KnowledgeNode` (models.py): author, title, content, optional parent,
`auto_now_add` creation timestamp. -/
structure KnowledgeNode where
  pk : NodeId
  author : UserId
  title : String
  content : String
  parent : Option NodeId
  created_at : Nat
deriving Repr, DecidableEq

structure ForumState where
  profiles : UserId → Option UserProfile
  nodes : List KnowledgeNode

/-- Descending comparison on creation time, for `order_by("-created_at")`. -/
def createdDesc (a b : KnowledgeNode) : Prop := b.created_at ≤ a.created_at

/-- Ascending comparison on creation time, for `order_by("created_at")`. -/
def createdAsc (a b : KnowledgeNode) : Prop := a.created_at ≤ b.created_at

instance : DecidableRel createdDesc := fun a b =>
  inferInstanceAs (Decidable (b.created_at ≤ a.created_at))

instance : DecidableRel createdAsc := fun a b =>
  inferInstanceAs (Decidable (a.created_at ≤ b.created_at))

instance : IsTotal KnowledgeNode createdDesc :=
  ⟨fun a b => Nat.le_total b.created_at a.created_at⟩

instance : IsTrans KnowledgeNode createdDesc :=
  ⟨fun _ _ _ h h' => Nat.le_trans h' h⟩

instance : IsTotal KnowledgeNode createdAsc :=
  ⟨fun a b => Nat.le_total a.created_at b.created_at⟩

instance : IsTrans KnowledgeNode createdAsc :=
  ⟨fun _ _ _ h h' => Nat.le_trans h h'⟩

/-- `tree_index`'s root query (views.py line 196):
`KnowledgeNode.objects.filter(parent__isnull=True).order_by("-created_at")`. -/
def tree_index_roots (nodes : List KnowledgeNode) : List KnowledgeNode :=
  (nodes.filter fun n => n.parent = none).insertionSort createdDesc

/-- `node.children.all().order_by("created_at")`: the direct-children query
used by `node_detail` (views.py line 227) and by `build_node_tree` inside
`tree_index` (views.py line 189). -/
def children_oldest_first (nodes : List KnowledgeNode) (pk : NodeId) :
    List KnowledgeNode :=
  (nodes.filter fun n => n.parent = some pk).insertionSort createdAsc

inductive CreateNodeMsg
  | parentMissing
  | formInvalid
  | published (pk : NodeId)
deriving Repr, DecidableEq

/-- `KnowledgeNodeForm.is_valid()` (forms.py): `title` and `content` are the
form's fields, both required model CharFields. -/
def formValid (title content : String) : Bool :=
  title ≠ "" && content ≠ ""

/-- `get_object_or_404(KnowledgeNode, pk=pid)` succeeds iff a row exists. -/
def parentOk (nodes : List KnowledgeNode) : Option NodeId → Bool
  | none => true
  | some pid => nodes.any fun n => n.pk = pid

/-- The POST branch of `create_node` (views.py 236-276). `parent_req` is the
resolved parent id (the hidden `parent_id` field taking precedence over the
query string), `now` the row's `auto_now_add` timestamp, `fresh_pk` the key
assigned to the new row. On success the node is persisted and the author's
profile is credited `coins += 5`. -/
def create_node (s : ForumState) (u : UserId) (parent_req : Option NodeId)
    (title content : String) (now : Nat) (fresh_pk : NodeId) :
    CreateNodeMsg × ForumState :=
  if ¬ parentOk s.nodes parent_req then (.parentMissing, s)
  else if ¬ formValid title content then (.formInvalid, s)
  else
    let node : KnowledgeNode :=
      { pk := fresh_pk, author := u, title := title, content := content,
        parent := parent_req, created_at := now }
    let pc := getOrCreateProfile s.profiles u
    let profiles2 := saveProfile pc.2 u { pc.1 with coins := pc.1.coins + 5 }
    (.published fresh_pk, { profiles := profiles2, nodes := s.nodes ++ [node] })

/-! ## Assistant bridge (views.py `ai_chat`, lines 521-572) -/

/-- A JSON value as far as the endpoint distinguishes them. -/
inductive JsonValue
  | str (s : String)
  | num (n : Int)
  | boolean (b : Bool)
  | null
deriving Repr, DecidableEq

def JsonValue.isStr : JsonValue → Bool
  | .str _ => true
  | _ => false

abbrev JsonDict := List (String × JsonValue)

/-- Python `dict.get(key, default)`. -/
def dictGet (d : JsonDict) (k : String) (dflt : JsonValue) : JsonValue :=
  match d.find? fun kv => kv.1 = k with
  | some kv => kv.2
  | none => dflt

/-- Python `str.strip()` with no argument: drop leading and trailing
whitespace. -/
def stripChars (s : String) : String :=
  String.mk
    (((s.data.dropWhile Char.isWhitespace).reverse.dropWhile
        Char.isWhitespace).reverse)

/-- Python `value.strip()`: defined on strings only; on any other value it
raises `AttributeError` (modelled as `none`), which the handler's outer
`except Exception` turns into a 500 response. -/
def pyStrip : JsonValue → Option String
  | .str s => some (stripChars s)
  | _ => none

/-- An authenticated request as the endpoint sees it: the HTTP method and the
parse of `request.body` (`none` models `json.JSONDecodeError`). -/
structure AiChatRequest where
  method : String
  body : Option JsonDict
deriving Repr, DecidableEq

/-- A `JsonResponse`: HTTP status plus the `response`/`error` payload keys. -/
structure AiChatResponse where
  status : Nat
  response : Option String
  error : Option String
deriving Repr, DecidableEq

/-- Outcome of `model.generate_content(prompt)` followed by `response.text`:
either generated text or an exception message. -/
inductive GeminiOutcome
  | ok (text : String)
  | failed (emsg : String)
deriving Repr, DecidableEq

/-- The persona-and-context prompt template (views.py line 553). -/
def buildPrompt (coins level : Int) (message : String) : String :=
  "你是一个赛博朋克虚拟世界的 AI 助手，名字叫 CyberBot。你的说话风格要酷一点、简短一点，带一点未来感。当前对话的用户拥有 "
    ++ toString coins ++ " 金币，等级是 Lv." ++ toString level
    ++ "。如果用户问怎么赚钱，就推荐他去签到或买地皮。用户的输入是：" ++ message

structure AiChatResult where
  resp : AiChatResponse
  calledGemini : Bool
  profiles : UserId → Option UserProfile

/-- `ai_chat` for an authenticated caller; `gemini` models the external
text-generation call on the built prompt. `calledGemini` records whether the
external service was reached. A non-string `message` value fails `pyStrip`
(Python `AttributeError`) and is caught by the generic handler as a 500; a
service failure is caught inside and degraded to a 200 response carrying
`系统连接中断: <error>`. -/
def ai_chat (gemini : String → GeminiOutcome)
    (profiles : UserId → Option UserProfile) (u : UserId)
    (req : AiChatRequest) : AiChatResult :=
  if req.method ≠ "POST" then
    ⟨{ status := 405, response := none, error := some "只支持 POST 请求" }, false, profiles⟩
  else
    match req.body with
    | none =>
      ⟨{ status := 400, response := none, error := some "请求数据格式错误" }, false, profiles⟩
    | some data =>
      match pyStrip (dictGet data "message" (.str "")) with
      | none =>
        ⟨{ status := 500, response := none, error := some "服务器错误：AttributeError" }, false, profiles⟩
      | some message =>
        if message = "" then
          ⟨{ status := 400, response := none, error := some "消息不能为空" }, false, profiles⟩
        else
          let pc := getOrCreateProfile profiles u
          match gemini (buildPrompt pc.1.coins pc.1.level message) with
          | .ok text =>
            ⟨{ status := 200, response := some text, error := none }, true, pc.2⟩
          | .failed e =>
            ⟨{ status := 200, response := some ("系统连接中断: " ++ e), error := none }, true, pc.2⟩

/-- A request body the endpoint rejects before reaching the external service:
unparseable JSON, a `message` that is not a string, or a `message` that is
empty after trimming. -/
def malformedBody : Option JsonDict → Prop
  | none => True
  | some d =>
    pyStrip (dictGet d "message" (.str "")) = none ∨
      pyStrip (dictGet d "message" (.str "")) = some ""

/-! ## Concrete sample data -/

def wProfiles : UserId → Option UserProfile :=
  fun u => if u ≤ 2 then some defaultProfile else none

def wUsers : UserId → Bool := fun u => u ≤ 2

def wItem : GameItem :=
  { name := "义体芯片", description := "基础改造件", price := 30,
    effect_value := 0, category := "equipment" }

def wItems : ItemId → Option GameItem :=
  fun i => if i = 0 then some wItem else none

def wShopState : ShopState :=
  { profiles := wProfiles, inventory := fun _ _ => none }

def richProfile : UserProfile := { defaultProfile with coins := 600 }

def wPlot : LandPlot :=
  { name := "霓虹地块", x_pos := 1, y_pos := 2, owner := none, price := 500,
    building_type := "NONE", is_for_sale := false, resale_price := none }

def wLandState : LandState :=
  { profiles := fun u => if u = 1 then some richProfile else none,
    plots := fun q => if q = 0 then some wPlot else none }

def wNodes : List KnowledgeNode :=
  [ { pk := 1, author := 1, title := "根话题甲", content := "内容甲", parent := none, created_at := 10 },
    { pk := 2, author := 1, title := "回复乙", content := "内容乙", parent := some 1, created_at := 20 },
    { pk := 3, author := 2, title := "根话题丙", content := "内容丙", parent := none, created_at := 30 },
    { pk := 4, author := 2, title := "回复丁", content := "内容丁", parent := some 1, created_at := 5 } ]

def wForumState : ForumState := { profiles := wProfiles, nodes := wNodes }

def wGeminiFail : String → GeminiOutcome := fun _ => .failed "ConnectError"

def wReqEmptyMsg : AiChatRequest :=
  { method := "POST", body := some [("message", JsonValue.str "  ")] }

def wReqNumMsg : AiChatRequest :=
  { method := "POST", body := some [("message", JsonValue.num 3)] }

/-! ## Theorems -/

/-- C8: every newly created profile — whether written by the on-user-creation
hook (`create_user_profile`) or by a handler's defensive get-or-create —
starts with exactly 100 coins, level 1, experience 0 and no check-in date. -/
theorem new_profile_defaults (profiles : UserId → Option UserProfile)
    (u : UserId) :
    create_user_profile profiles u u = some defaultProfile ∧
    defaultProfile.coins = 100 ∧ defaultProfile.level = 1 ∧
    defaultProfile.experience = 0 ∧ defaultProfile.last_checkin = none ∧
    (profiles u = none →
      (getOrCreateProfile profiles u).1 = defaultProfile ∧
      (getOrCreateProfile profiles u).2 u = some defaultProfile) := by
  refine ⟨by simp [create_user_profile], rfl, rfl, rfl, rfl, ?_⟩
  intro h
  simp [getOrCreateProfile, h, create_user_profile]

/-- Witness for C8 at a concrete empty store and user id 3. -/
theorem new_profile_defaults_witness :
    ((fun _ : UserId => (none : Option UserProfile)) 3 = none) ∧
    (getOrCreateProfile (fun _ => none) 3).1 = defaultProfile :=
  ⟨rfl, ((new_profile_defaults (fun _ => none) 3).2.2.2.2.2 rfl).1⟩

/-- C4: daily check-in is idempotent per calendar day: when the profile's
`last_checkin` already equals today the store is untouched; otherwise the
check-in adds exactly 10 coins and 5 experience, stamps today, and touches no
other profile; a second check-in the same day is a no-op on the state
produced by the first. -/
theorem daily_checkin_spec (profiles : UserId → Option UserProfile)
    (u : UserId) (today : Day) (p : UserProfile) (hp : profiles u = some p) :
    (p.last_checkin = some today →
      daily_checkin profiles u today = (.alreadyToday, profiles)) ∧
    (p.last_checkin ≠ some today →
      (daily_checkin profiles u today).1 = .rewarded ∧
      (daily_checkin profiles u today).2 u =
        some { p with coins := p.coins + 10, experience := p.experience + 5,
                      last_checkin := some today } ∧
      (∀ v, v ≠ u → (daily_checkin profiles u today).2 v = profiles v)) ∧
    daily_checkin (daily_checkin profiles u today).2 u today =
      (.alreadyToday, (daily_checkin profiles u today).2) := by
  have hfix : ∀ (ps : UserId → Option UserProfile) (q : UserProfile),
      ps u = some q → q.last_checkin = some today →
      daily_checkin ps u today = (.alreadyToday, ps) := by
    intro ps q hq hlc
    simp [daily_checkin, getOrCreateProfile, hq, hlc]
  by_cases h : p.last_checkin = some today
  · refine ⟨fun _ => hfix profiles p hp h, fun hne => absurd h hne, ?_⟩
    rw [hfix profiles p hp h]
    exact hfix profiles p hp h
  · have hrun : daily_checkin profiles u today =
        (.rewarded, saveProfile profiles u
          { p with coins := p.coins + 10, experience := p.experience + 5,
                   last_checkin := some today }) := by
      simp [daily_checkin, getOrCreateProfile, hp, h]
    refine ⟨fun hc => absurd hc h, fun _ => ?_, ?_⟩
    · rw [hrun]
      refine ⟨rfl, by simp [saveProfile], fun v hv => by simp [saveProfile, hv]⟩
    · rw [hrun]
      exact hfix _
        { p with coins := p.coins + 10, experience := p.experience + 5,
                 last_checkin := some today }
        (by simp [saveProfile]) rfl

/-- Witness for C4: a profile that never checked in, checking in on day 7. -/
theorem daily_checkin_spec_witness :
    wProfiles 1 = some defaultProfile ∧
    (defaultProfile.last_checkin ≠ some 7 →
      (daily_checkin wProfiles 1 7).1 = .rewarded ∧
      (daily_checkin wProfiles 1 7).2 1 =
        some { defaultProfile with coins := defaultProfile.coins + 10,
                                   experience := defaultProfile.experience + 5,
                                   last_checkin := some 7 } ∧
      (∀ v, v ≠ 1 → (daily_checkin wProfiles 1 7).2 v = wProfiles v)) :=
  ⟨rfl, (daily_checkin_spec wProfiles 1 7 defaultProfile rfl).2.1⟩

/-- C1: a shop purchase by an account whose profile holds `B` coins on an
existing item of price `P` succeeds iff `P ≤ B`; on success the balance
becomes `B − P` and the (account, item) inventory quantity rises by exactly 1
(the row being created at quantity 1 when absent, since `get_or_create` uses
`defaults={"quantity": 0}`); on insufficient balance, and on an unknown item
id, the store is unchanged. -/
theorem shop_purchase_spec (items : ItemId → Option GameItem) (s : ShopState)
    (u : UserId) (iid : ItemId) (p : UserProfile)
    (hp : s.profiles u = some p) :
    (∀ it, items iid = some it →
      (it.price ≤ p.coins ↔ (shop_purchase items s u iid).1.isSuccess) ∧
      (it.price ≤ p.coins →
        (shop_purchase items s u iid).2.profiles u =
          some { p with coins := p.coins - it.price } ∧
        (shop_purchase items s u iid).2.inventory u iid =
          some ((s.inventory u iid).getD 0 + 1) ∧
        (∀ v i, v ≠ u ∨ i ≠ iid →
          (shop_purchase items s u iid).2.inventory v i = s.inventory v i)) ∧
      (p.coins < it.price → shop_purchase items s u iid = (.insufficientBalance, s))) ∧
    (items iid = none → shop_purchase items s u iid = (.itemMissing, s)) := by
  refine ⟨?_, fun hnone => by simp [shop_purchase, hnone]⟩
  intro it hit
  by_cases hlt : p.coins < it.price
  · have hrun : shop_purchase items s u iid = (.insufficientBalance, s) := by
      simp [shop_purchase, hit, getOrCreateProfile, hp, hlt]
    refine ⟨?_, fun hle => absurd hle (not_le.mpr hlt), fun _ => hrun⟩
    rw [hrun]
    simp [ShopMsg.isSuccess, not_le.mpr hlt]
  · have hle := not_lt.mp hlt
    have hrun : shop_purchase items s u iid =
        (.purchased it.name,
          { profiles := saveProfile s.profiles u { p with coins := p.coins - it.price },
            inventory := fun v i =>
              if v = u && i = iid then some ((s.inventory u iid).getD 0 + 1)
              else s.inventory v i }) := by
      simp [shop_purchase, hit, getOrCreateProfile, hp, hlt]
    refine ⟨?_, fun _ => ?_, fun hlt' => absurd hlt' hlt⟩
    · rw [hrun]
      simp [ShopMsg.isSuccess, hle]
    · rw [hrun]
      refine ⟨by simp [saveProfile], by simp, fun v i hvi => ?_⟩
      rcases hvi with hv | hi
      · simp [hv]
      · simp [hi]

/-- Witness for C1: a 100-coin default profile buying the 30-coin sample
item for the first time. -/
theorem shop_purchase_spec_witness :
    wShopState.profiles 1 = some defaultProfile ∧
    wItems 0 = some wItem ∧
    (wItem.price ≤ defaultProfile.coins ↔
      (shop_purchase wItems wShopState 1 0).1.isSuccess) :=
  ⟨rfl, rfl, ((shop_purchase_spec wItems wShopState 1 0 defaultProfile rfl).1 wItem rfl).1⟩

/-- C2: a successful tip debits the sender by `A` and credits the recipient by
`A`, keeping the combined balance invariant; the attempt is rejected with no
profile change when the amount fails to parse as an integer, is ≤ 0, the
recipient is the sender, or the sender's balance is below the amount. -/
theorem transfer_coins_spec (users : UserId → Bool)
    (profiles : UserId → Option UserProfile) (sender recipient : UserId)
    (amount : Option Int) (sp rp : UserProfile)
    (hs : profiles sender = some sp) (hr : profiles recipient = some rp) :
    (∀ a, amount = some a →
      (transfer_coins users profiles sender recipient amount).1 = .success →
      ((transfer_coins users profiles sender recipient amount).2 sender).map (·.coins) =
        some (sp.coins - a) ∧
      ((transfer_coins users profiles sender recipient amount).2 recipient).map (·.coins) =
        some (rp.coins + a) ∧
      (sp.coins - a) + (rp.coins + a) = sp.coins + rp.coins) ∧
    ((amount = none ∨
        ∃ a, amount = some a ∧ (a ≤ 0 ∨ recipient = sender ∨ sp.coins < a)) →
      (transfer_coins users profiles sender recipient amount).1 ≠ .success ∧
      (transfer_coins users profiles sender recipient amount).2 = profiles) := by
  cases amount with
  | none =>
    refine ⟨?_, ?_⟩
    · intro a ha
      cases ha
    · intro _
      simp [transfer_coins]
  | some a =>
    by_cases h1 : a ≤ 0
    · have hrun : transfer_coins users profiles sender recipient (some a) =
          (.amountNotPositive, profiles) := by simp [transfer_coins, h1]
      rw [hrun]
      exact ⟨fun a' ha' hsucc => by simp at hsucc, fun _ => ⟨by simp, rfl⟩⟩
    · by_cases h2 : users recipient
      · by_cases h3 : recipient = sender
        · have hrun : transfer_coins users profiles sender recipient (some a) =
              (.selfTransfer, profiles) := by
            subst h3
            simp [transfer_coins, h1, h2]
          rw [hrun]
          exact ⟨fun a' ha' hsucc => by simp at hsucc, fun _ => ⟨by simp, rfl⟩⟩
        · by_cases h4 : sp.coins < a
          · have hrun : transfer_coins users profiles sender recipient (some a) =
                (.insufficientBalance, profiles) := by
              simp [transfer_coins, h1, h2, h3, getOrCreateProfile, hs, h4]
            rw [hrun]
            refine ⟨fun a' ha' hsucc => by simp at hsucc, fun _ => ⟨by simp, rfl⟩⟩
          · have hrun : transfer_coins users profiles sender recipient (some a) =
                (.success,
                  saveProfile
                    (saveProfile profiles sender { sp with coins := sp.coins - a })
                    recipient { rp with coins := rp.coins + a }) := by
              simp [transfer_coins, h1, h2, h3, getOrCreateProfile, hs, hr, h4]
            rw [hrun]
            refine ⟨fun a' ha' _ => ?_, fun hrej => ?_⟩
            · cases ha'
              refine ⟨?_, ?_, by ring⟩
              · simp [saveProfile, Ne.symm h3]
              · simp [saveProfile]
            · rcases hrej with h | ⟨a', ha', hc⟩
              · cases h
              · cases ha'
                rcases hc with hc | hc | hc
                · exact absurd hc h1
                · exact absurd hc h3
                · exact absurd hc h4
      · have hrun : transfer_coins users profiles sender recipient (some a) =
            (.recipientMissing, profiles) := by simp [transfer_coins, h1, h2]
        rw [hrun]
        exact ⟨fun a' ha' hsucc => by simp at hsucc, fun _ => ⟨by simp, rfl⟩⟩

/-- Witness for C2: account 1 (100 coins) successfully tips 50 to account 2. -/
theorem transfer_coins_spec_witness :
    wProfiles 1 = some defaultProfile ∧ wProfiles 2 = some defaultProfile ∧
    (((transfer_coins wUsers wProfiles 1 2 (some 50)).2 1).map (·.coins) =
        some (defaultProfile.coins - 50) ∧
      ((transfer_coins wUsers wProfiles 1 2 (some 50)).2 2).map (·.coins) =
        some (defaultProfile.coins + 50) ∧
      (defaultProfile.coins - 50) + (defaultProfile.coins + 50) =
        defaultProfile.coins + defaultProfile.coins) :=
  ⟨rfl, rfl,
    (transfer_coins_spec wUsers wProfiles 1 2 (some 50) defaultProfile
      defaultProfile rfl rfl).1 50 rfl rfl⟩

/-- C9: a successful tip changes only the `coins` field of the sender's and
the recipient's profiles — their level, experience, check-in date, nickname
and bio are untouched, and every other account's profile row is unchanged. -/
theorem transfer_coins_frame (users : UserId → Bool)
    (profiles : UserId → Option UserProfile) (sender recipient : UserId)
    (a : Int) (sp rp : UserProfile)
    (hs : profiles sender = some sp) (hr : profiles recipient = some rp)
    (hsucc : (transfer_coins users profiles sender recipient (some a)).1 = .success) :
    (transfer_coins users profiles sender recipient (some a)).2 sender =
      some { sp with coins := sp.coins - a } ∧
    (transfer_coins users profiles sender recipient (some a)).2 recipient =
      some { rp with coins := rp.coins + a } ∧
    ∀ v, v ≠ sender → v ≠ recipient →
      (transfer_coins users profiles sender recipient (some a)).2 v = profiles v := by
  by_cases h1 : a ≤ 0
  · exact absurd hsucc (by simp [transfer_coins, h1])
  by_cases h2 : users recipient
  case neg => exact absurd hsucc (by simp [transfer_coins, h1, h2])
  by_cases h3 : recipient = sender
  · exact absurd hsucc (by subst h3; simp [transfer_coins, h1, h2])
  by_cases h4 : sp.coins < a
  · exact absurd hsucc
      (by simp [transfer_coins, h1, h2, h3, getOrCreateProfile, hs, h4])
  have hrun : transfer_coins users profiles sender recipient (some a) =
      (.success,
        saveProfile (saveProfile profiles sender { sp with coins := sp.coins - a })
          recipient { rp with coins := rp.coins + a }) := by
    simp [transfer_coins, h1, h2, h3, getOrCreateProfile, hs, hr, h4]
  rw [hrun]
  exact ⟨by simp [saveProfile, Ne.symm h3], by simp [saveProfile],
    fun v hvs hvr => by simp [saveProfile, hvs, hvr]⟩

/-- Witness for C9: the successful 50-coin tip from account 1 to account 2
leaves account 1's row equal to its old row with only `coins` changed. -/
theorem transfer_coins_frame_witness :
    (transfer_coins wUsers wProfiles 1 2 (some 50)).1 = .success ∧
    (transfer_coins wUsers wProfiles 1 2 (some 50)).2 1 =
      some { defaultProfile with coins := defaultProfile.coins - 50 } :=
  ⟨rfl,
    (transfer_coins_frame wUsers wProfiles 1 2 50 defaultProfile defaultProfile
      rfl rfl rfl).1⟩

/-- C3: a land purchase on a plot of price `P` by a buyer holding `B` coins is
rejected with the store unchanged when the plot already has an owner — the
owner is checked both before and after the re-read inside the atomic scope,
and in this sequential model the re-read returns the same row — or when
`B < P`; otherwise the buyer is debited exactly `P` and the plot's owner set
to the buyer, and no other profile or plot row changes. -/
theorem buy_land_spec (s : LandState) (u : UserId) (pid : PlotId)
    (plot : LandPlot) (p : UserProfile)
    (hplot : s.plots pid = some plot) (hp : s.profiles u = some p) :
    (plot.owner ≠ none → buy_land s u pid = (.alreadyOwned, s)) ∧
    (plot.owner = none → p.coins < plot.price →
      buy_land s u pid = (.insufficientBalance, s)) ∧
    (plot.owner = none → plot.price ≤ p.coins →
      (buy_land s u pid).1 = .purchased plot.name ∧
      (buy_land s u pid).2.profiles u =
        some { p with coins := p.coins - plot.price } ∧
      (buy_land s u pid).2.plots pid = some { plot with owner := some u } ∧
      (∀ v, v ≠ u → (buy_land s u pid).2.profiles v = s.profiles v) ∧
      (∀ q, q ≠ pid → (buy_land s u pid).2.plots q = s.plots q)) := by
  refine ⟨?_, ?_, ?_⟩
  · intro howner
    match howner' : plot.owner with
    | some o => simp [buy_land, hplot, howner']
    | none => exact absurd howner' howner
  · intro howner hlt
    simp [buy_land, hplot, howner, getOrCreateProfile, hp, hlt]
  · intro howner hle
    have hrun : buy_land s u pid =
        (.purchased plot.name,
          { profiles := saveProfile s.profiles u { p with coins := p.coins - plot.price },
            plots := savePlot s.plots pid { plot with owner := some u } }) := by
      simp [buy_land, hplot, howner, getOrCreateProfile, hp, not_lt.mpr hle]
    rw [hrun]
    refine ⟨rfl, by simp [saveProfile], by simp [savePlot], ?_, ?_⟩
    · intro v hv
      simp [saveProfile, hv]
    · intro q hq
      simp [savePlot, hq]

/-- Witness for C3: account 1 with 600 coins buys the ownerless 500-coin
sample plot. -/
theorem buy_land_spec_witness :
    wLandState.plots 0 = some wPlot ∧
    wLandState.profiles 1 = some richProfile ∧
    (wPlot.owner = none → wPlot.price ≤ richProfile.coins →
      (buy_land wLandState 1 0).1 = .purchased wPlot.name ∧
      (buy_land wLandState 1 0).2.profiles 1 =
        some { richProfile with coins := richProfile.coins - wPlot.price } ∧
      (buy_land wLandState 1 0).2.plots 0 = some { wPlot with owner := some 1 } ∧
      (∀ v, v ≠ 1 → (buy_land wLandState 1 0).2.profiles v = wLandState.profiles v) ∧
      (∀ q, q ≠ 0 → (buy_land wLandState 1 0).2.plots q = wLandState.plots q)) :=
  ⟨rfl, rfl, (buy_land_spec wLandState 1 0 wPlot richProfile rfl rfl).2.2⟩

/-- C5: every successful creation of a discussion node credits the acting
author's profile with exactly 5 coins (and changes nothing else on it),
whether or not a parent node was supplied. -/
theorem create_node_reward (s : ForumState) (u : UserId)
    (parent_req : Option NodeId) (title content : String) (now : Nat)
    (fpk : NodeId) (p : UserProfile) (pk : NodeId)
    (hp : s.profiles u = some p)
    (hsucc : (create_node s u parent_req title content now fpk).1 = .published pk) :
    (create_node s u parent_req title content now fpk).2.profiles u =
      some { p with coins := p.coins + 5 } := by
  by_cases hpar : parentOk s.nodes parent_req
  · by_cases hform : formValid title content
    · simp [create_node, hpar, hform, getOrCreateProfile, hp, saveProfile]
    · simp [create_node, hpar, hform] at hsucc
  · simp [create_node, hpar] at hsucc

/-- Witness for C5: author 2 replies under node 1 in the sample forum and is
credited 5 coins. -/
theorem create_node_reward_witness :
    wForumState.profiles 2 = some defaultProfile ∧
    (create_node wForumState 2 (some 1) "标题" "正文" 40 9).1 = .published 9 ∧
    (create_node wForumState 2 (some 1) "标题" "正文" 40 9).2.profiles 2 =
      some { defaultProfile with coins := defaultProfile.coins + 5 } :=
  ⟨rfl, rfl, create_node_reward wForumState 2 (some 1) "标题" "正文" 40 9
    defaultProfile 9 rfl rfl⟩

/-- Creation timestamps stay pairwise distinct on any filtered sublist. -/
theorem pairwise_created_ne_filter (nodes : List KnowledgeNode)
    (hd : (nodes.map fun n => n.created_at).Nodup)
    (pred : KnowledgeNode → Bool) :
    List.Pairwise (fun a b => a.created_at ≠ b.created_at)
      (nodes.filter pred) :=
  List.pairwise_map.mp
    (hd.sublist ((nodes.filter_sublist).map fun n => n.created_at))

/-- C6: with pairwise-distinct creation timestamps (as `auto_now_add` stamps
are in practice), the root query returns exactly the parentless nodes in
strictly newest-first order, and the direct-children query — shared by the
node-detail page and the tree visualization — returns exactly the children of
the given node in strictly oldest-first order. -/
theorem discussion_orderings (nodes : List KnowledgeNode) (pk : NodeId)
    (hd : (nodes.map fun n => n.created_at).Nodup) :
    List.Pairwise (fun a b => b.created_at < a.created_at)
      (tree_index_roots nodes) ∧
    (tree_index_roots nodes).Perm (nodes.filter fun n => n.parent = none) ∧
    List.Pairwise (fun a b => a.created_at < b.created_at)
      (children_oldest_first nodes pk) ∧
    (children_oldest_first nodes pk).Perm
      (nodes.filter fun n => n.parent = some pk) := by
  have hperm1 : (tree_index_roots nodes).Perm
      (nodes.filter fun n => n.parent = none) :=
    List.perm_insertionSort createdDesc _
  have hperm2 : (children_oldest_first nodes pk).Perm
      (nodes.filter fun n => n.parent = some pk) :=
    List.perm_insertionSort createdAsc _
  have hne1 : List.Pairwise (fun a b => a.created_at ≠ b.created_at)
      (tree_index_roots nodes) :=
    (hperm1.pairwise_iff fun h => Ne.symm h).mpr
      (pairwise_created_ne_filter nodes hd _)
  have hne2 : List.Pairwise (fun a b => a.created_at ≠ b.created_at)
      (children_oldest_first nodes pk) :=
    (hperm2.pairwise_iff fun h => Ne.symm h).mpr
      (pairwise_created_ne_filter nodes hd _)
  have hsorted1 : List.Pairwise createdDesc (tree_index_roots nodes) :=
    List.sorted_insertionSort createdDesc _
  have hsorted2 : List.Pairwise createdAsc (children_oldest_first nodes pk) :=
    List.sorted_insertionSort createdAsc _
  refine ⟨?_, hperm1, ?_, hperm2⟩
  · exact (hsorted1.and hne1).imp fun h => lt_of_le_of_ne h.1 (Ne.symm h.2)
  · exact (hsorted2.and hne2).imp fun h => lt_of_le_of_ne h.1 h.2

/-- Witness for C6 on the four-node sample forest. -/
theorem discussion_orderings_witness :
    (wNodes.map fun n => n.created_at).Nodup ∧
    List.Pairwise (fun a b => b.created_at < a.created_at)
      (tree_index_roots wNodes) ∧
    List.Pairwise (fun a b => a.created_at < b.created_at)
      (children_oldest_first wNodes 1) :=
  ⟨by decide, (discussion_orderings wNodes 1 (by decide)).1,
    (discussion_orderings wNodes 1 (by decide)).2.2.1⟩

/-- C7: on an authenticated POST, a message that is empty after trimming
yields a 400 error response without reaching the external service; any
failure of the external service yields an HTTP-200 response whose text is the
degraded `系统连接中断` message carrying the error text; and every non-200
response comes from a malformed request body. -/
theorem ai_chat_resilience (gemini : String → GeminiOutcome)
    (profiles : UserId → Option UserProfile) (u : UserId) (req : AiChatRequest)
    (hm : req.method = "POST") :
    (∀ d m, req.body = some d → dictGet d "message" (.str "") = .str m →
      stripChars m = "" →
      (ai_chat gemini profiles u req).resp.status = 400 ∧
      (ai_chat gemini profiles u req).resp.error.isSome = true ∧
      (ai_chat gemini profiles u req).calledGemini = false) ∧
    (∀ d m e, req.body = some d → dictGet d "message" (.str "") = .str m →
      stripChars m ≠ "" →
      gemini (buildPrompt (getOrCreateProfile profiles u).1.coins
        (getOrCreateProfile profiles u).1.level (stripChars m)) = .failed e →
      (ai_chat gemini profiles u req).resp.status = 200 ∧
      (ai_chat gemini profiles u req).resp.response =
        some ("系统连接中断: " ++ e)) ∧
    ((ai_chat gemini profiles u req).resp.status ≠ 200 →
      malformedBody req.body) := by
  refine ⟨?_, ?_, ?_⟩
  · intro d m hb hmsg htrim
    simp [ai_chat, hm, hb, hmsg, pyStrip, htrim]
  · intro d m e hb hmsg htrim hgem
    simp [ai_chat, hm, hb, hmsg, pyStrip, htrim, hgem]
  · intro hst
    rcases hb : req.body with _ | d
    · simp [malformedBody]
    · rcases hstrip : pyStrip (dictGet d "message" (.str "")) with _ | msg
      · simp only [malformedBody]
        exact Or.inl hstrip
      · by_cases hmsg0 : msg = ""
        · simp only [malformedBody]
          right
          rw [hstrip, hmsg0]
        · exfalso
          apply hst
          rcases hg : gemini (buildPrompt (getOrCreateProfile profiles u).1.coins
              (getOrCreateProfile profiles u).1.level msg) with t | e <;>
            simp [ai_chat, hm, hb, hstrip, hmsg0, hg]

/-- Witness for C7: an authenticated POST whose message is whitespace only is
answered 400 with no external call. -/
theorem ai_chat_resilience_witness :
    wReqEmptyMsg.method = "POST" ∧
    ((ai_chat wGeminiFail wProfiles 1 wReqEmptyMsg).resp.status = 400 ∧
      (ai_chat wGeminiFail wProfiles 1 wReqEmptyMsg).resp.error.isSome = true ∧
      (ai_chat wGeminiFail wProfiles 1 wReqEmptyMsg).calledGemini = false) :=
  ⟨rfl, (ai_chat_resilience wGeminiFail wProfiles 1 wReqEmptyMsg rfl).1
    [("message", JsonValue.str "  ")] "  " rfl rfl (by decide)⟩

/-- C10: a valid-JSON POST body whose `message` value is not a string makes
the handler raise `AttributeError` at `.strip()`, caught by the generic
`except` clause: a 500 error response, no external call, no profile change. -/
theorem ai_chat_nonstring_message (gemini : String → GeminiOutcome)
    (profiles : UserId → Option UserProfile) (u : UserId) (req : AiChatRequest)
    (d : JsonDict) (hm : req.method = "POST") (hb : req.body = some d)
    (hns : (dictGet d "message" (.str "")).isStr = false) :
    (ai_chat gemini profiles u req).resp.status = 500 ∧
    (ai_chat gemini profiles u req).resp.error.isSome = true ∧
    (ai_chat gemini profiles u req).calledGemini = false ∧
    (ai_chat gemini profiles u req).profiles = profiles := by
  have hstrip : pyStrip (dictGet d "message" (.str "")) = none := by
    rcases hv : dictGet d "message" (.str "") with s | n | b | _
    · rw [hv] at hns
      simp [JsonValue.isStr] at hns
    all_goals rfl
  simp [ai_chat, hm, hb, hstrip]

/-- Witness for C10: `{"message": 3}` is answered 500. -/
theorem ai_chat_nonstring_message_witness :
    wReqNumMsg.method = "POST" ∧
    wReqNumMsg.body = some [("message", JsonValue.num 3)] ∧
    (dictGet [("message", JsonValue.num 3)] "message" (.str "")).isStr = false ∧
    (ai_chat wGeminiFail wProfiles 1 wReqNumMsg).resp.status = 500 :=
  ⟨rfl, rfl, rfl,
    (ai_chat_nonstring_message wGeminiFail wProfiles 1 wReqNumMsg
      [("message", JsonValue.num 3)] rfl rfl rfl).1⟩
